import Mathlib

/-!
Shallow embedding of the StellarGrid token contract
(`src/strgrid_token/contracts/token/src/lib.rs`) and verification of the
frozen claims about it.

Modelling conventions:
* `Addr` (Soroban `Address`) is modelled as `Nat`.
* Rust `u64` values are modelled as `Nat`, with every arithmetic
  operation of the source made explicitly wrapping modulo `2 ^ 64`
  (`wadd`, `wsub`, `wmul`): the contract performs unchecked `+`, `-`,
  `*` on `u64`, which wrap in a release build.  Well-formed call
  arguments (`u64` typing of the Rust parameters) are below `2 ^ 64`.
* The persistent key/value store is modelled by association lists
  (`mapFind` / `mapSet`), one per storage category tag
  (`BALANCE`, `ALLOW`, `GEN`, `ENERGY`), plus the instance-scope
  singletons `ADMIN`, `META`, `TOTAL`.
* The authentication oracle (`require_auth`) is an external
  collaborator, assumed to have authorized every call that this
  development executes; it performs no state change.
* A contract failure is a panic.  The source distinguishes
  `panic_with_error!(&env, STRGRIDError::…)` (a typed contract error)
  from `.expect("…")` (an untagged host panic); the embedding keeps the
  distinction with `Err.contractError` versus `Err.trap`.  Either kind
  aborts the operation with no state mutation, hence the operations
  return `Except Err State` and an error result carries no writes.
-/

/-- 2^64, the modulus of Rust `u64` arithmetic. -/
def U64MOD : Nat := 2 ^ 64

/-- Wrapping `u64` addition. -/
def wadd (a b : Nat) : Nat := (a + b) % U64MOD

/-- Wrapping `u64` subtraction (for operands below `2 ^ 64`). -/
def wsub (a b : Nat) : Nat := (a + U64MOD - b) % U64MOD

/-- Wrapping `u64` multiplication. -/
def wmul (a b : Nat) : Nat := (a * b) % U64MOD

/-- Soroban addresses, abstracted to naturals. -/
abbrev Addr := Nat

/-- `EnergyGenerator` record (lib.rs lines 19-25). -/
structure EnergyGenerator where
  address : Addr
  capacity_kw : Nat
  current_production : Nat
  is_active : Bool
  registration_date : Nat
deriving Repr, DecidableEq

/-- `EnergyToken` record (lib.rs lines 29-36). -/
structure EnergyToken where
  id : Nat
  generator_id : Addr
  amount_kwh : Nat
  creation_timestamp : Nat
  expiry_timestamp : Nat
  is_consumed : Bool
deriving Repr, DecidableEq

/-- `TokenMetadata` record (lib.rs lines 40-45). -/
structure TokenMetadata where
  name : String
  symbol : String
  decimals : Nat
  total_supply : Nat
deriving Repr, DecidableEq

/-- `STRGRIDError` contract-error enum (lib.rs lines 51-61). -/
inductive STRGRIDError where
  | NotAuthorized
  | InvalidAmount
  | InsufficientBalance
  | GeneratorNotFound
  | GeneratorInactive
  | InsufficientCapacity
  | TokenNotFound
  | InsufficientAllowance
  | AlreadyBurned
deriving Repr, DecidableEq

/-- The messages of the source's `.expect(…)` calls. -/
inductive TrapMsg where
  /-- `.expect("Not authorized")` -/
  | notAuthorizedMsg
  /-- `.expect("Generator not found")` -/
  | generatorNotFoundMsg
  /-- `.expect("Token not found")` -/
  | tokenNotFoundMsg
deriving Repr, DecidableEq

/-- A contract failure: either a typed `panic_with_error!` contract
error, or an untagged `.expect`/host panic with its message. -/
inductive Err where
  | contractError (e : STRGRIDError)
  | trap (msg : TrapMsg)
deriving Repr, DecidableEq

deriving instance DecidableEq for Except

/-- Lookup in an association list (persistent-storage `get`). -/
def mapFind {κ α : Type} [DecidableEq κ] : List (κ × α) → κ → Option α
  | [], _ => none
  | (k, v) :: rest, k' => if k' = k then some v else mapFind rest k'

/-- Update in an association list (persistent-storage `set`): replaces
the first binding of the key, or appends a new binding. -/
def mapSet {κ α : Type} [DecidableEq κ] : List (κ × α) → κ → α → List (κ × α)
  | [], k, v => [(k, v)]
  | (k0, v0) :: rest, k, v =>
      if k = k0 then (k0, v) :: rest else (k0, v0) :: mapSet rest k v

/-- Lookup with a default (the source's `.get(…).unwrap_or(0)`). -/
def mapGetD {κ α : Type} [DecidableEq κ] (m : List (κ × α)) (k : κ) (d : α) : α :=
  (mapFind m k).getD d

/-- The whole contract storage. -/
structure State where
  /-- instance key `ADMIN` -/
  admin : Option Addr
  /-- instance key `META` -/
  metadata : Option TokenMetadata
  /-- instance key `TOTAL`; read with `unwrap_or(0)` -/
  total_supply : Nat
  /-- persistent keys `(BALANCE, addr)` -/
  balances : List (Addr × Nat)
  /-- persistent keys `(ALLOW, owner, spender)` -/
  allowances : List ((Addr × Addr) × Nat)
  /-- persistent keys `(GEN, addr)` -/
  generators : List (Addr × EnergyGenerator)
  /-- persistent keys `(ENERGY, id)` -/
  tokens : List (Nat × EnergyToken)
deriving Repr, DecidableEq

/-- The ledger before any call: nothing stored. -/
def emptyState : State :=
  { admin := none, metadata := none, total_supply := 0,
    balances := [], allowances := [], generators := [], tokens := [] }

/-- `initialize` (lib.rs lines 70-93).  Note: the "already initialized"
check panics with `STRGRIDError::NotAuthorized`. -/
def initContract (s : State) (admin : Addr) (name symbol : String)
    (decimals : Nat) : Except Err State :=
  if s.admin.isSome then
    .error (.contractError .NotAuthorized)
  else
    .ok { s with
      admin := some admin,
      metadata := some { name := name, symbol := symbol,
                         decimals := decimals, total_supply := 0 },
      total_supply := 0 }

/-- `register_generator` (lib.rs lines 96-118).  The missing-admin
lookup is `.expect("Not authorized")`, an untagged panic. -/
def register_generator (s : State) (now : Nat) (generator : Addr)
    (capacity_kw : Nat) : Except Err State :=
  match s.admin with
  | none => .error (.trap .notAuthorizedMsg)
  | some _ =>
    if capacity_kw = 0 then
      .error (.contractError .InvalidAmount)
    else
      .ok { s with
        generators := mapSet s.generators generator
          { address := generator, capacity_kw := capacity_kw,
            current_production := 0, is_active := true,
            registration_date := now } }

/-- `mint_energy_tokens` (lib.rs lines 121-183).  Returns the new
token id together with the updated state.  The oracle-proof argument is
ignored by the source, hence omitted.  The missing-generator lookup is
`.expect("Generator not found")`, an untagged panic. -/
def mint_energy_tokens (s : State) (now : Nat) (generator : Addr)
    (energy_amount_kwh expiry_hours : Nat) : Except Err (Nat × State) :=
  match mapFind s.generators generator with
  | none => .error (.trap .generatorNotFoundMsg)
  | some g =>
    if g.is_active = false then
      .error (.contractError .GeneratorInactive)
    else if g.capacity_kw < wadd g.current_production energy_amount_kwh then
      .error (.contractError .InsufficientCapacity)
    else
      let token_id := now
      let expiry_timestamp := wadd now (wmul expiry_hours 3600)
      let energy_token : EnergyToken :=
        { id := token_id, generator_id := generator,
          amount_kwh := energy_amount_kwh, creation_timestamp := now,
          expiry_timestamp := expiry_timestamp, is_consumed := false }
      let g' := { g with
        current_production := wadd g.current_production energy_amount_kwh }
      let current_balance := mapGetD s.balances generator 0
      .ok (token_id, { s with
        generators := mapSet s.generators generator g',
        tokens := mapSet s.tokens token_id energy_token,
        balances := mapSet s.balances generator
          (wadd current_balance energy_amount_kwh),
        total_supply := wadd s.total_supply energy_amount_kwh })

/-- `burn_energy_tokens` (lib.rs lines 186-237).  The missing-token and
missing-generator lookups are `.expect(…)` untagged panics; the expiry
check uses the typed `TokenNotFound` error and runs before the
consumed-flag check. -/
def burn_energy_tokens (s : State) (now : Nat) (consumer : Addr)
    (token_id amount : Nat) : Except Err State :=
  match mapFind s.tokens token_id with
  | none => .error (.trap .tokenNotFoundMsg)
  | some energy_token =>
    if energy_token.expiry_timestamp < now then
      .error (.contractError .TokenNotFound)
    else if energy_token.is_consumed then
      .error (.contractError .AlreadyBurned)
    else
      let consumer_balance := mapGetD s.balances consumer 0
      if consumer_balance < amount then
        .error (.contractError .InsufficientBalance)
      else
        match mapFind s.generators energy_token.generator_id with
        | none => .error (.trap .generatorNotFoundMsg)
        | some generator_data =>
          let generator_data' := { generator_data with
            current_production :=
              wsub generator_data.current_production amount }
          let energy_token' := { energy_token with is_consumed := true }
          .ok { s with
            tokens := mapSet s.tokens token_id energy_token',
            balances := mapSet s.balances consumer
              (wsub consumer_balance amount),
            generators := mapSet s.generators energy_token.generator_id
              generator_data',
            total_supply := wsub s.total_supply amount }

/-- `transfer` (lib.rs lines 240-266).  The recipient balance is read
before either write; the debit write happens first and, when
`from_ = to_`, is overwritten by the credit write. -/
def transfer (s : State) (from_ to_ : Addr) (amount : Nat) :
    Except Err State :=
  if amount = 0 then
    .error (.contractError .InvalidAmount)
  else
    let from_balance := mapGetD s.balances from_ 0
    if from_balance < amount then
      .error (.contractError .InsufficientBalance)
    else
      let to_balance := mapGetD s.balances to_ 0
      .ok { s with
        balances := mapSet (mapSet s.balances from_ (wsub from_balance amount))
          to_ (wadd to_balance amount) }

/-- `approve` (lib.rs lines 269-279): unconditionally overwrites the
allowance. -/
def approve (s : State) (owner spender : Addr) (amount : Nat) :
    Except Err State :=
  .ok { s with allowances := mapSet s.allowances (owner, spender) amount }

/-- `transfer_from` (lib.rs lines 282-319). -/
def transfer_from (s : State) (spender from_ to_ : Addr) (amount : Nat) :
    Except Err State :=
  if amount = 0 then
    .error (.contractError .InvalidAmount)
  else
    let current_allowance := mapGetD s.allowances (from_, spender) 0
    if current_allowance < amount then
      .error (.contractError .InsufficientAllowance)
    else
      let from_balance := mapGetD s.balances from_ 0
      if from_balance < amount then
        .error (.contractError .InsufficientBalance)
      else
        let to_balance := mapGetD s.balances to_ 0
        .ok { s with
          balances := mapSet
            (mapSet s.balances from_ (wsub from_balance amount))
            to_ (wadd to_balance amount),
          allowances := mapSet s.allowances (from_, spender)
            (wsub current_allowance amount) }

/-- `balance_of` (lib.rs lines 327-329). -/
def balance_of (s : State) (address : Addr) : Nat :=
  mapGetD s.balances address 0

/-- `allowance` query (lib.rs lines 322-324). -/
def allowance_of (s : State) (owner spender : Addr) : Nat :=
  mapGetD s.allowances (owner, spender) 0

/-- `total_supply` query (lib.rs lines 332-334). -/
def total_supply_of (s : State) : Nat := s.total_supply

/-- `set_generator_status` (lib.rs lines 358-376). -/
def set_generator_status (s : State) (generator : Addr) (is_active : Bool) :
    Except Err State :=
  match s.admin with
  | none => .error (.trap .notAuthorizedMsg)
  | some _ =>
    match mapFind s.generators generator with
    | none => .error (.trap .generatorNotFoundMsg)
    | some g =>
      .ok { s with
        generators := mapSet s.generators generator
          { g with is_active := is_active } }

/-- `update_generator_capacity` (lib.rs lines 379-397): sets the new
capacity without re-checking it against `current_production`. -/
def update_generator_capacity (s : State) (generator : Addr)
    (new_capacity_kw : Nat) : Except Err State :=
  match s.admin with
  | none => .error (.trap .notAuthorizedMsg)
  | some _ =>
    match mapFind s.generators generator with
    | none => .error (.trap .generatorNotFoundMsg)
    | some g =>
      .ok { s with
        generators := mapSet s.generators generator
          { g with capacity_kw := new_capacity_kw } }

/-- One contract call, bundling its arguments. -/
inductive Op where
  | opInit (admin : Addr) (name symbol : String) (decimals : Nat)
  | opRegister (generator : Addr) (capacity_kw : Nat)
  | opMint (generator : Addr) (energy_amount_kwh expiry_hours : Nat)
  | opBurn (consumer : Addr) (token_id amount : Nat)
  | opTransfer (from_ to_ : Addr) (amount : Nat)
  | opApprove (owner spender : Addr) (amount : Nat)
  | opTransferFrom (spender from_ to_ : Addr) (amount : Nat)
  | opSetStatus (generator : Addr) (is_active : Bool)
  | opUpdateCapacity (generator : Addr) (new_capacity_kw : Nat)
deriving Repr, DecidableEq

/-- Dispatch one call at ledger time `now` (the monotonic-clock
collaborator supplies `now`). -/
def step (s : State) (now : Nat) : Op → Except Err State
  | .opInit admin name symbol decimals =>
      initContract s admin name symbol decimals
  | .opRegister generator capacity_kw =>
      register_generator s now generator capacity_kw
  | .opMint generator amount expiry_hours =>
      (mint_energy_tokens s now generator amount expiry_hours).map (·.2)
  | .opBurn consumer token_id amount =>
      burn_energy_tokens s now consumer token_id amount
  | .opTransfer from_ to_ amount => transfer s from_ to_ amount
  | .opApprove owner spender amount => approve s owner spender amount
  | .opTransferFrom spender from_ to_ amount =>
      transfer_from s spender from_ to_ amount
  | .opSetStatus generator is_active =>
      set_generator_status s generator is_active
  | .opUpdateCapacity generator new_capacity_kw =>
      update_generator_capacity s generator new_capacity_kw

/-- Run a timed call sequence; `none` as soon as one call fails, so a
`some` result means every call in the sequence succeeded. -/
def execTrace (s : State) : List (Nat × Op) → Option State
  | [] => some s
  | (now, op) :: rest =>
    match step s now op with
    | .error _ => none
    | .ok s' => execTrace s' rest

/-- Sum of every stored account balance. -/
def balanceSum (s : State) : Nat := (s.balances.map Prod.snd).sum

/-- Characterization of lookup after update. -/
theorem mapFind_mapSet {κ α : Type} [DecidableEq κ]
    (m : List (κ × α)) (k k' : κ) (v : α) :
    mapFind (mapSet m k v) k' = if k' = k then some v else mapFind m k' := by
  induction m with
  | nil => simp [mapSet, mapFind]
  | cons hd tl ih =>
    obtain ⟨k0, v0⟩ := hd
    by_cases h : k = k0
    · subst h
      by_cases h' : k' = k <;> simp [mapSet, mapFind, h']
    · by_cases h' : k' = k0
      · subst h'
        have hne : ¬ k' = k := fun hh => h hh.symm
        simp [mapSet, mapFind, h, hne]
      · simp [mapSet, mapFind, h, h', ih]

/-- Default-lookup after update. -/
theorem mapGetD_mapSet {κ α : Type} [DecidableEq κ]
    (m : List (κ × α)) (k k' : κ) (v d : α) :
    mapGetD (mapSet m k v) k' d = if k' = k then v else mapGetD m k' d := by
  by_cases h : k' = k <;> simp [mapGetD, mapFind_mapSet, h]

/-- Wrapping subtraction of at most the minuend stays below it. -/
theorem wsub_le_self (x y : Nat) (h : y ≤ x) : wsub x y ≤ x := by
  unfold wsub
  have h1 : x + U64MOD - y = (x - y) + U64MOD := by omega
  rw [h1, Nat.add_mod_right]
  exact le_trans (Nat.mod_le _ _) (Nat.sub_le _ _)

/-- Wrapping subtraction agrees with subtraction on in-range `u64`s. -/
theorem wsub_eq_sub (x y : Nat) (hy : y ≤ x) (hx : x < U64MOD) :
    wsub x y = x - y := by
  unfold wsub
  have h1 : x + U64MOD - y = (x - y) + U64MOD := by omega
  rw [h1, Nat.add_mod_right]
  exact Nat.mod_eq_of_lt (by omega)

/-- The capacity invariant of the spec: every registered generator's
current production is at most its registered capacity. -/
def CapOK (s : State) : Prop :=
  ∀ a g, mapFind s.generators a = some g →
    g.current_production ≤ g.capacity_kw

/-- Side condition under which a call is claimed to preserve the
capacity invariant: a burn may not exceed the issuing generator's
outstanding production, and a capacity update may not go below the
outstanding production. -/
def safeCapOp (s : State) : Op → Bool
  | .opBurn _ token_id amount =>
    match mapFind s.tokens token_id with
    | some tok =>
      match mapFind s.generators tok.generator_id with
      | some g => decide (amount ≤ g.current_production)
      | none => true
    | none => true
  | .opUpdateCapacity generator new_capacity_kw =>
    match mapFind s.generators generator with
    | some g => decide (g.current_production ≤ new_capacity_kw)
    | none => true
  | _ => true

/-- Run a timed call sequence, requiring every call to succeed and to
satisfy `safeCapOp` in the state it executes in. -/
def execGuarded (s : State) : List (Nat × Op) → Option State
  | [] => some s
  | (now, op) :: rest =>
    if safeCapOp s op then
      match step s now op with
      | .error _ => none
      | .ok s' => execGuarded s' rest
    else none

/-- Inversion of a successful `initialize`. -/
theorem initContract_ok {s : State} {a : Addr} {nm sy : String} {d : Nat}
    {s' : State} (h : initContract s a nm sy d = .ok s') :
    s.admin = none ∧
    s' = { s with admin := some a,
                  metadata := some { name := nm, symbol := sy,
                                     decimals := d, total_supply := 0 },
                  total_supply := 0 } := by
  unfold initContract at h
  split at h
  · simp at h
  · rename_i hadm
    simp only [Except.ok.injEq] at h
    exact ⟨Option.not_isSome_iff_eq_none.mp hadm, h.symm⟩

/-- Inversion of a successful `register_generator`. -/
theorem register_generator_ok {s : State} {now generator capacity_kw : Nat}
    {s' : State} (h : register_generator s now generator capacity_kw = .ok s') :
    capacity_kw ≠ 0 ∧
    s' = { s with
           generators := mapSet s.generators generator
             ⟨generator, capacity_kw, 0, true, now⟩ } := by
  unfold register_generator at h
  split at h
  · simp at h
  · split at h
    · simp at h
    · rename_i hcap
      simp only [Except.ok.injEq] at h
      exact ⟨hcap, h.symm⟩

/-- Inversion of a successful `mint_energy_tokens`. -/
theorem mint_energy_tokens_ok {s : State} {now generator amt eh : Nat}
    {p : Nat × State} (h : mint_energy_tokens s now generator amt eh = .ok p) :
    ∃ g, mapFind s.generators generator = some g ∧
      g.is_active = true ∧
      wadd g.current_production amt ≤ g.capacity_kw ∧
      p = (now, { s with
        generators := mapSet s.generators generator
          ⟨g.address, g.capacity_kw, wadd g.current_production amt,
           g.is_active, g.registration_date⟩,
        tokens := mapSet s.tokens now
          ⟨now, generator, amt, now, wadd now (wmul eh 3600), false⟩,
        balances := mapSet s.balances generator
          (wadd (mapGetD s.balances generator 0) amt),
        total_supply := wadd s.total_supply amt }) := by
  unfold mint_energy_tokens at h
  split at h
  · simp at h
  · rename_i g hg
    split at h
    · simp at h
    · split at h
      · simp at h
      · rename_i hactive hcap
        simp only [Except.ok.injEq] at h
        exact ⟨g, hg, by simpa using hactive, Nat.not_lt.mp hcap, h.symm⟩

/-- Inversion of a successful `burn_energy_tokens`. -/
theorem burn_energy_tokens_ok {s : State} {now consumer token_id amount : Nat}
    {s' : State} (h : burn_energy_tokens s now consumer token_id amount = .ok s') :
    ∃ tok g, mapFind s.tokens token_id = some tok ∧
      ¬ tok.expiry_timestamp < now ∧
      tok.is_consumed = false ∧
      amount ≤ mapGetD s.balances consumer 0 ∧
      mapFind s.generators tok.generator_id = some g ∧
      s' = { s with
        tokens := mapSet s.tokens token_id
          ⟨tok.id, tok.generator_id, tok.amount_kwh, tok.creation_timestamp,
           tok.expiry_timestamp, true⟩,
        balances := mapSet s.balances consumer
          (wsub (mapGetD s.balances consumer 0) amount),
        generators := mapSet s.generators tok.generator_id
          ⟨g.address, g.capacity_kw, wsub g.current_production amount,
           g.is_active, g.registration_date⟩,
        total_supply := wsub s.total_supply amount } := by
  unfold burn_energy_tokens at h
  split at h
  · simp at h
  · rename_i tok htok
    split at h
    · simp at h
    · rename_i hexp
      split at h
      · simp at h
      · rename_i hcons
        split at h
        · by_cases hbal : mapGetD s.balances consumer 0 < amount <;>
            simp [hbal] at h
        · rename_i g hgen
          by_cases hbal : mapGetD s.balances consumer 0 < amount
          · simp [hbal] at h
          · simp only [if_neg hbal, Except.ok.injEq] at h
            exact ⟨tok, g, htok, hexp, by simpa using hcons,
              Nat.not_lt.mp hbal, hgen, h.symm⟩

/-- Inversion of a successful `transfer`. -/
theorem transfer_ok {s : State} {from_ to_ amount : Nat} {s' : State}
    (h : transfer s from_ to_ amount = .ok s') :
    amount ≠ 0 ∧ amount ≤ mapGetD s.balances from_ 0 ∧
    s' = { s with
           balances := mapSet
             (mapSet s.balances from_ (wsub (mapGetD s.balances from_ 0) amount))
             to_ (wadd (mapGetD s.balances to_ 0) amount) } := by
  unfold transfer at h
  split at h
  · simp at h
  · rename_i hz
    by_cases hbal : mapGetD s.balances from_ 0 < amount
    · simp [hbal] at h
    · simp only [if_neg hbal, Except.ok.injEq] at h
      exact ⟨hz, Nat.not_lt.mp hbal, h.symm⟩

/-- Inversion of a (always successful) `approve`. -/
theorem approve_ok {s : State} {owner spender amount : Nat} {s' : State}
    (h : approve s owner spender amount = .ok s') :
    s' = { s with allowances := mapSet s.allowances (owner, spender) amount } := by
  unfold approve at h
  simp only [Except.ok.injEq] at h
  exact h.symm

/-- Inversion of a successful `transfer_from`. -/
theorem transfer_from_ok {s : State} {spender from_ to_ amount : Nat} {s' : State}
    (h : transfer_from s spender from_ to_ amount = .ok s') :
    amount ≠ 0 ∧ amount ≤ mapGetD s.allowances (from_, spender) 0 ∧
    amount ≤ mapGetD s.balances from_ 0 ∧
    s' = { s with
      balances :=
        mapSet (mapSet s.balances from_ (wsub (mapGetD s.balances from_ 0) amount))
          to_ (wadd (mapGetD s.balances to_ 0) amount),
      allowances := mapSet s.allowances (from_, spender)
        (wsub (mapGetD s.allowances (from_, spender) 0) amount) } := by
  unfold transfer_from at h
  split at h
  · simp at h
  · rename_i hz
    by_cases hallow : mapGetD s.allowances (from_, spender) 0 < amount
    · simp [hallow] at h
    · by_cases hbal : mapGetD s.balances from_ 0 < amount
      · simp [hallow, hbal] at h
      · simp only [if_neg hallow, if_neg hbal, Except.ok.injEq] at h
        exact ⟨hz, Nat.not_lt.mp hallow, Nat.not_lt.mp hbal, h.symm⟩

/-- Inversion of a successful `set_generator_status`. -/
theorem set_generator_status_ok {s : State} {generator : Addr} {is_active : Bool}
    {s' : State} (h : set_generator_status s generator is_active = .ok s') :
    ∃ g, mapFind s.generators generator = some g ∧
      s' = { s with
             generators := mapSet s.generators generator
               ⟨g.address, g.capacity_kw, g.current_production, is_active,
                 g.registration_date⟩ } := by
  unfold set_generator_status at h
  split at h
  · simp at h
  · split at h
    · simp at h
    · rename_i g hg
      simp only [Except.ok.injEq] at h
      exact ⟨g, hg, h.symm⟩

/-- Inversion of a successful `update_generator_capacity`. -/
theorem update_generator_capacity_ok {s : State}
    {generator new_capacity_kw : Nat} {s' : State}
    (h : update_generator_capacity s generator new_capacity_kw = .ok s') :
    ∃ g, mapFind s.generators generator = some g ∧
      s' = { s with
             generators := mapSet s.generators generator
               ⟨g.address, new_capacity_kw, g.current_production, g.is_active,
                 g.registration_date⟩ } := by
  unfold update_generator_capacity at h
  split at h
  · simp at h
  · split at h
    · simp at h
    · rename_i g hg
      simp only [Except.ok.injEq] at h
      exact ⟨g, hg, h.symm⟩

/-- A successful call executed under the `safeCapOp` side condition
preserves the capacity invariant. -/
theorem step_preserves_capOK {s : State} {now : Nat} {op : Op} {s' : State}
    (hcap : CapOK s) (hsafe : safeCapOp s op = true)
    (hstep : step s now op = .ok s') : CapOK s' := by
  cases op with
  | opInit admin name symbol decimals =>
    obtain ⟨-, rfl⟩ := initContract_ok hstep
    exact fun a g hg => hcap a g hg
  | opRegister generator capacity_kw =>
    obtain ⟨-, rfl⟩ := register_generator_ok hstep
    intro a g hg
    rw [mapFind_mapSet] at hg
    by_cases ha : a = generator
    · rw [if_pos ha] at hg
      cases hg
      exact Nat.zero_le _
    · rw [if_neg ha] at hg
      exact hcap a g hg
  | opMint generator amt eh =>
    simp only [step] at hstep
    cases hmint : mint_energy_tokens s now generator amt eh with
    | error e => rw [hmint] at hstep; simp [Except.map] at hstep
    | ok p =>
      rw [hmint] at hstep
      simp only [Except.map, Except.ok.injEq] at hstep
      obtain ⟨g, hg, hact, hcapne, hp⟩ := mint_energy_tokens_ok hmint
      subst hp
      cases hstep
      intro a g' hg'
      rw [mapFind_mapSet] at hg'
      by_cases ha : a = generator
      · rw [if_pos ha] at hg'
        cases hg'
        exact hcapne
      · rw [if_neg ha] at hg'
        exact hcap a g' hg'
  | opBurn consumer token_id amount =>
    obtain ⟨tok, g, htok, hexp, hcons, hbal, hgen, rfl⟩ :=
      burn_energy_tokens_ok hstep
    have hsafe' : amount ≤ g.current_production := by
      simp only [safeCapOp, htok, hgen] at hsafe
      exact of_decide_eq_true hsafe
    intro a g' hg'
    rw [mapFind_mapSet] at hg'
    by_cases ha : a = tok.generator_id
    · rw [if_pos ha] at hg'
      cases hg'
      exact le_trans (wsub_le_self _ _ hsafe') (hcap _ g hgen)
    · rw [if_neg ha] at hg'
      exact hcap a g' hg'
  | opTransfer from_ to_ amount =>
    obtain ⟨-, -, rfl⟩ := transfer_ok hstep
    exact fun a g hg => hcap a g hg
  | opApprove owner spender amount =>
    have h' := approve_ok hstep
    subst h'
    exact fun a g hg => hcap a g hg
  | opTransferFrom spender from_ to_ amount =>
    obtain ⟨-, -, -, rfl⟩ := transfer_from_ok hstep
    exact fun a g hg => hcap a g hg
  | opSetStatus generator is_active =>
    obtain ⟨g, hg, rfl⟩ := set_generator_status_ok hstep
    intro a g' hg'
    rw [mapFind_mapSet] at hg'
    by_cases ha : a = generator
    · rw [if_pos ha] at hg'
      cases hg'
      exact hcap _ g hg
    · rw [if_neg ha] at hg'
      exact hcap a g' hg'
  | opUpdateCapacity generator new_capacity_kw =>
    obtain ⟨g, hg, rfl⟩ := update_generator_capacity_ok hstep
    have hsafe' : g.current_production ≤ new_capacity_kw := by
      simp only [safeCapOp, hg] at hsafe
      exact of_decide_eq_true hsafe
    intro a g' hg'
    rw [mapFind_mapSet] at hg'
    by_cases ha : a = generator
    · rw [if_pos ha] at hg'
      cases hg'
      exact hsafe'
    · rw [if_neg ha] at hg'
      exact hcap a g' hg'

/-- Running a guarded call sequence preserves the capacity invariant. -/
theorem execGuarded_capOK :
    ∀ (tr : List (Nat × Op)) (s s' : State), CapOK s →
      execGuarded s tr = some s' → CapOK s' := by
  intro tr
  induction tr with
  | nil =>
    intro s s' hcap h
    simp only [execGuarded, Option.some.injEq] at h
    exact h ▸ hcap
  | cons hd tl ih =>
    intro s s' hcap h
    obtain ⟨now, op⟩ := hd
    simp only [execGuarded] at h
    split at h
    · rename_i hsafe
      cases hstep : step s now op with
      | error e => rw [hstep] at h; simp at h
      | ok s1 =>
        rw [hstep] at h
        exact ih s1 s' (step_preserves_capOK hcap hsafe hstep) h
    · simp at h

/-- The empty ledger satisfies the capacity invariant vacuously. -/
theorem capOK_emptyState : CapOK emptyState := by
  intro a g hg
  simp [emptyState, mapFind] at hg

/-- Calls: initialize, register a 100 kW generator `1`, mint 10 to it. -/
def preSelfTransferTrace : List (Nat × Op) :=
  [(0, .opInit 9 "" "" 7), (0, .opRegister 1 100), (0, .opMint 1 10 24)]

/-- The ledger reached by `preSelfTransferTrace`. -/
def preSelfTransferState : State :=
  match execTrace emptyState preSelfTransferTrace with
  | some s => s
  | none => emptyState

/-- `preSelfTransferTrace` extended by the self-transfer
`transfer(1, 1, 10)`. -/
def selfTransferTrace : List (Nat × Op) :=
  preSelfTransferTrace ++ [(1, .opTransfer 1 1 10)]

/-- The ledger reached by `selfTransferTrace`. -/
def selfTransferState : State :=
  match execTrace emptyState selfTransferTrace with
  | some s => s
  | none => emptyState

/-- C1.  The conservation law `sum(all balances) = total_supply` is
violated by the code: after the successful call sequence
initialize, register_generator(1, 100), mint_energy_tokens(1, 10, 24),
transfer(1, 1, 10) (a self-transfer), the single stored balance is 20
while the stored total supply is 10.  The self-transfer reads the
recipient balance before the debit write and the credit write then
overwrites the debit write. -/
theorem conservation_violated_by_self_transfer :
    execTrace emptyState selfTransferTrace = some selfTransferState ∧
    balanceSum selfTransferState = 20 ∧
    selfTransferState.total_supply = 10 ∧
    balanceSum selfTransferState ≠ selfTransferState.total_supply :=
  ⟨by decide, by decide, by decide, by decide⟩

/-- C2.  A self-transfer is not balance-neutral: with
`balance_of(1) = 10`, the successful call `transfer(1, 1, 4)` leaves
`balance_of(1) = 14`, not 10. -/
theorem self_transfer_inflates_balance :
    balance_of preSelfTransferState 1 = 10 ∧
    (transfer preSelfTransferState 1 1 4).map
      (fun s' => balance_of s' 1) = .ok 14 ∧
    (14 : Nat) ≠ 10 :=
  ⟨by decide, by decide, by decide⟩

/-- Two generators `1` and `2`; generator `1` minted 30, generator `2`
minted 50; consumer `2` (holding balance 50) burns 50 against
generator `1`'s credit (id 0), which only has production 30. -/
def burnUnderflowTrace : List (Nat × Op) :=
  [(0, .opInit 9 "" "" 7), (0, .opRegister 1 100), (0, .opRegister 2 100),
   (0, .opMint 1 30 24), (1, .opMint 2 50 24)]

/-- The ledger reached by `burnUnderflowTrace`. -/
def burnUnderflowState : State :=
  match execTrace emptyState burnUnderflowTrace with
  | some s => s
  | none => emptyState

/-- C3.  A burn whose amount (50) exceeds the issuing generator's
current production (30) does not fail: it succeeds and wraps the
generator's `current_production` around zero to `2 ^ 64 - 20`. -/
theorem burn_underflow_wraps_production :
    (mapFind burnUnderflowState.generators 1).map
      (fun g => g.current_production) = some 30 ∧
    (burn_energy_tokens burnUnderflowState 2 2 0 50).map
      (fun s' => (mapFind s'.generators 1).map
        (fun g => g.current_production)) =
      .ok (some (U64MOD - 20)) ∧
    U64MOD - 20 = 18446744073709551596 :=
  ⟨by decide, by decide, by decide⟩

/-- Generator `1` registered with capacity 1000, mints 500, then the
admin lowers its capacity to 100. -/
def capacityLoweringTrace : List (Nat × Op) :=
  [(0, .opInit 9 "" "" 7), (0, .opRegister 1 1000), (0, .opMint 1 500 24),
   (1, .opUpdateCapacity 1 100)]

/-- The ledger reached by `capacityLoweringTrace`. -/
def capacityLoweringState : State :=
  match execTrace emptyState capacityLoweringTrace with
  | some s => s
  | none => emptyState

/-- C4 counterexample.  After lowering the capacity of generator `1`
below its outstanding production, a burn of 50 against its credit
succeeds and leaves `current_production = 450 > 100 = capacity_kw`:
the capacity invariant does not hold after every successful burn. -/
theorem capacity_invariant_fails_after_burn :
    execTrace emptyState capacityLoweringTrace = some capacityLoweringState ∧
    (burn_energy_tokens capacityLoweringState 2 1 0 50).map
      (fun s' => (mapFind s'.generators 1).map
        (fun g => (g.current_production, g.capacity_kw))) =
      .ok (some (450, 100)) ∧
    ¬ (450 : Nat) ≤ 100 :=
  ⟨by decide, by decide, by decide⟩

/-- C4 (amended).  For every sequence of successful calls from the
empty ledger in which no burn exceeds the issuing generator's current
production and no capacity update goes below the generator's current
production (the `safeCapOp` guard), every registered generator
satisfies `current_production ≤ capacity_kw` after every call (every
intermediate state is reachable by a prefix, which is itself such a
sequence); under the same guard `current_production` never wraps
below zero. -/
theorem capacity_invariant_guarded (tr : List (Nat × Op)) (s' : State)
    (h : execGuarded emptyState tr = some s') :
    ∀ a g, mapFind s'.generators a = some g →
      g.current_production ≤ g.capacity_kw :=
  execGuarded_capOK tr emptyState s' capOK_emptyState h

/-- Guarded trace for the C4 witness: register capacity 100, mint 40. -/
def capWitnessTrace : List (Nat × Op) :=
  [(0, .opInit 9 "" "" 7), (0, .opRegister 1 100), (3, .opMint 1 40 2)]

/-- The ledger reached by `capWitnessTrace`. -/
def capWitnessState : State :=
  match execGuarded emptyState capWitnessTrace with
  | some s => s
  | none => emptyState

/-- Witness for C4 at a concrete guarded trace. -/
theorem capacity_invariant_guarded_witness :
    EnergyGenerator.current_production ⟨1, 100, 40, true, 0⟩ ≤
      EnergyGenerator.capacity_kw ⟨1, 100, 40, true, 0⟩ :=
  capacity_invariant_guarded capWitnessTrace capWitnessState (by decide) 1
    ⟨1, 100, 40, true, 0⟩ (by decide)

/-- Initialize, register generator `1` (capacity 100), mint 50 with a
one-hour expiry, so credit id 0 expires at timestamp 3600. -/
def doubleBurnTrace : List (Nat × Op) :=
  [(0, .opInit 9 "" "" 7), (0, .opRegister 1 100), (0, .opMint 1 50 1)]

/-- The ledger reached by `doubleBurnTrace`. -/
def doubleBurnPre : State :=
  match execTrace emptyState doubleBurnTrace with
  | some s => s
  | none => emptyState

/-- `doubleBurnPre` after the successful burn of 20 against credit 0
at ledger time 10. -/
def doubleBurnState : State :=
  match burn_energy_tokens doubleBurnPre 10 1 0 20 with
  | .ok s => s
  | .error _ => emptyState

/-- C5 counterexample.  After a successful burn of credit 0, a second
burn of the same credit at ledger time 4000 (past its expiry 3600)
fails with `TokenNotFound`, not `AlreadyBurned`: the expiry check runs
before the consumed-flag check. -/
theorem second_burn_after_expiry_not_already_burned :
    burn_energy_tokens doubleBurnPre 10 1 0 20 = .ok doubleBurnState ∧
    burn_energy_tokens doubleBurnState 4000 1 0 5 =
      .error (.contractError .TokenNotFound) ∧
    Err.contractError .TokenNotFound ≠ Err.contractError .AlreadyBurned :=
  ⟨by decide, by decide, by decide⟩

/-- C5 (amended).  A successful burn stores the credit with
`is_consumed = true`, and any burn of a credit whose stored record is
consumed fails: with `AlreadyBurned` when the ledger time is at most
the credit's expiry, and with `TokenNotFound` when the ledger time
exceeds the expiry.  (In particular a second burn of the same credit
id can never succeed unless a later mint reuses the id.) -/
theorem burned_credit_reburn_fails :
    (∀ (s : State) (now consumer token_id amount : Nat) (s' : State),
        burn_energy_tokens s now consumer token_id amount = .ok s' →
        (mapFind s'.tokens token_id).map (fun t => t.is_consumed) =
          some true)
  ∧ (∀ (s : State) (now consumer token_id amount : Nat)
        (tok : EnergyToken),
        mapFind s.tokens token_id = some tok → tok.is_consumed = true →
        burn_energy_tokens s now consumer token_id amount =
          .error (.contractError
            (if tok.expiry_timestamp < now then .TokenNotFound
             else .AlreadyBurned))) := by
  constructor
  · intro s now consumer token_id amount s' h
    obtain ⟨tok, g, htok, -, -, -, -, rfl⟩ := burn_energy_tokens_ok h
    simp [mapFind_mapSet]
  · intro s now consumer token_id amount tok htok hcons
    by_cases hexp : tok.expiry_timestamp < now
    · simp [burn_energy_tokens, htok, hexp]
    · simp [burn_energy_tokens, htok, hexp, hcons]

/-- Witness for C5: the concrete double burns on `doubleBurnState`. -/
theorem burned_credit_reburn_fails_witness :
    (mapFind doubleBurnState.tokens 0).map (fun t => t.is_consumed) =
      some true ∧
    burn_energy_tokens doubleBurnState 4000 1 0 5 =
      .error (.contractError .TokenNotFound) ∧
    burn_energy_tokens doubleBurnState 3000 1 0 5 =
      .error (.contractError .AlreadyBurned) := by
  refine ⟨burned_credit_reburn_fails.1 doubleBurnPre 10 1 0 20
    doubleBurnState (by decide), ?_, ?_⟩
  · have h := burned_credit_reburn_fails.2 doubleBurnState 4000 1 0 5
      ⟨0, 1, 50, 0, 3600, true⟩ (by decide) rfl
    simpa using h
  · have h := burned_credit_reburn_fails.2 doubleBurnState 3000 1 0 5
      ⟨0, 1, 50, 0, 3600, true⟩ (by decide) rfl
    simpa using h

/-- C6 counterexample.  Minting for an unregistered generator (5) on
an initialized ledger fails with the untagged `.expect` panic
"Generator not found", which is not the typed contract error
`GeneratorNotFound`. -/
theorem mint_unregistered_traps_untyped :
    mint_energy_tokens preSelfTransferState 1 5 10 24 =
      .error (.trap .generatorNotFoundMsg) ∧
    Err.trap .generatorNotFoundMsg ≠
      Err.contractError .GeneratorNotFound :=
  ⟨by decide, by decide⟩

/-- C6 (amended).  `mint_energy_tokens` fails with an untagged panic
(not the typed `GeneratorNotFound` error) when the generator is
unregistered, with `GeneratorInactive` when inactive, and with
`InsufficientCapacity` when `(current_production + amount) mod 2^64`
exceeds the capacity (every failure leaves the state unchanged); on
success it creates the credit with `consumed = false` and
`expiry = (now + expiry_hours * 3600) mod 2^64`, increments the
generator's production, the generator's balance and the total supply
by the amount modulo `2^64`, and returns the current ledger timestamp
as the credit id. -/
theorem mint_energy_tokens_spec (s : State) (now generator amt eh : Nat) :
    (mapFind s.generators generator = none →
      mint_energy_tokens s now generator amt eh =
        .error (.trap .generatorNotFoundMsg))
  ∧ (∀ g, mapFind s.generators generator = some g →
      (g.is_active = false →
        mint_energy_tokens s now generator amt eh =
          .error (.contractError .GeneratorInactive))
    ∧ (g.is_active = true →
        g.capacity_kw < wadd g.current_production amt →
        mint_energy_tokens s now generator amt eh =
          .error (.contractError .InsufficientCapacity))
    ∧ (g.is_active = true →
        wadd g.current_production amt ≤ g.capacity_kw →
        ∃ s', mint_energy_tokens s now generator amt eh = .ok (now, s')
          ∧ mapFind s'.tokens now =
              some ⟨now, generator, amt, now,
                wadd now (wmul eh 3600), false⟩
          ∧ (mapFind s'.generators generator).map
              (fun g2 => g2.current_production) =
              some (wadd g.current_production amt)
          ∧ balance_of s' generator = wadd (balance_of s generator) amt
          ∧ s'.total_supply = wadd s.total_supply amt)) := by
  refine ⟨?_, ?_⟩
  · intro h
    simp [mint_energy_tokens, h]
  · intro g hg
    refine ⟨?_, ?_, ?_⟩
    · intro hact
      simp [mint_energy_tokens, hg, hact]
    · intro hact hcap
      simp [mint_energy_tokens, hg, hact, hcap]
    · intro hact hcap
      cases hres : mint_energy_tokens s now generator amt eh with
      | error e =>
        exfalso
        simp [mint_energy_tokens, hg, hact, Nat.not_lt.mpr hcap] at hres
      | ok p =>
        obtain ⟨g2, hg2, -, -, hp⟩ := mint_energy_tokens_ok hres
        rw [hg] at hg2
        injection hg2 with hg2
        subst hg2
        subst hp
        exact ⟨_, rfl, by simp [mapFind_mapSet],
          by simp [mapFind_mapSet],
          by simp [balance_of, mapGetD_mapSet], rfl⟩

/-- State with one registered, active generator `1` holding production
10 of capacity 100 (admin 9). -/
def mintWitnessState : State :=
  { emptyState with
    admin := some 9,
    generators := [(1, ⟨1, 100, 10, true, 0⟩)] }

/-- Witness for C6: a concrete successful mint of 40 at time 7. -/
theorem mint_energy_tokens_spec_witness :
    (mint_energy_tokens mintWitnessState 7 1 40 2).map
      (fun p => (p.1, balance_of p.2 1, p.2.total_supply)) =
      .ok (7, 40, 40) := by
  obtain ⟨s', h1, -, -, h4, h5⟩ :=
    ((mint_energy_tokens_spec mintWitnessState 7 1 40 2).2
      ⟨1, 100, 10, true, 0⟩ (by decide)).2.2 rfl (by decide)
  rw [h1]
  simp only [Except.map]
  rw [h4, h5]
  decide

/-- C7 counterexample.  Burning an absent credit id (99) fails with the
untagged `.expect` panic "Token not found", not the typed contract
error `TokenNotFound` (which the claim asserts for the absent case). -/
theorem burn_missing_credit_traps_untyped :
    burn_energy_tokens preSelfTransferState 0 1 99 5 =
      .error (.trap .tokenNotFoundMsg) ∧
    Err.trap .tokenNotFoundMsg ≠ Err.contractError .TokenNotFound :=
  ⟨by decide, by decide⟩

/-- C7 (amended).  `burn_energy_tokens` fails with an untagged panic
(not the typed `TokenNotFound` error) when the credit id is absent,
with typed `TokenNotFound` when the credit is past its expiry, with
`AlreadyBurned` when (unexpired and) consumed, and with
`InsufficientBalance` when the consumer's balance is below the amount;
on success (consumer balance in `u64` range) it debits the consumer's
balance by the amount, marks the credit fully consumed whatever the
amount, and decrements the issuing generator's production and the
total supply by the amount modulo `2^64`. -/
theorem burn_energy_tokens_spec (s : State)
    (now consumer token_id amount : Nat) :
    (mapFind s.tokens token_id = none →
      burn_energy_tokens s now consumer token_id amount =
        .error (.trap .tokenNotFoundMsg))
  ∧ (∀ tok, mapFind s.tokens token_id = some tok →
      (tok.expiry_timestamp < now →
        burn_energy_tokens s now consumer token_id amount =
          .error (.contractError .TokenNotFound))
    ∧ (now ≤ tok.expiry_timestamp → tok.is_consumed = true →
        burn_energy_tokens s now consumer token_id amount =
          .error (.contractError .AlreadyBurned))
    ∧ (now ≤ tok.expiry_timestamp → tok.is_consumed = false →
        balance_of s consumer < amount →
        burn_energy_tokens s now consumer token_id amount =
          .error (.contractError .InsufficientBalance))
    ∧ (∀ g, now ≤ tok.expiry_timestamp → tok.is_consumed = false →
        amount ≤ balance_of s consumer →
        balance_of s consumer < U64MOD →
        mapFind s.generators tok.generator_id = some g →
        ∃ s', burn_energy_tokens s now consumer token_id amount = .ok s'
          ∧ balance_of s' consumer = balance_of s consumer - amount
          ∧ mapFind s'.tokens token_id =
              some ⟨tok.id, tok.generator_id, tok.amount_kwh,
                tok.creation_timestamp, tok.expiry_timestamp, true⟩
          ∧ (mapFind s'.generators tok.generator_id).map
              (fun g2 => g2.current_production) =
              some (wsub g.current_production amount)
          ∧ s'.total_supply = wsub s.total_supply amount)) := by
  refine ⟨?_, ?_⟩
  · intro h
    simp [burn_energy_tokens, h]
  · intro tok htok
    refine ⟨?_, ?_, ?_, ?_⟩
    · intro hexp
      simp [burn_energy_tokens, htok, hexp]
    · intro hle hcons
      simp [burn_energy_tokens, htok, Nat.not_lt.mpr hle, hcons]
    · intro hle hcons hlt
      unfold balance_of at hlt
      simp [burn_energy_tokens, htok, Nat.not_lt.mpr hle, hcons, hlt]
    · intro g hle hcons hge hrange hgen
      unfold balance_of at hge hrange
      cases hres : burn_energy_tokens s now consumer token_id amount with
      | error e =>
        exfalso
        simp [burn_energy_tokens, htok, Nat.not_lt.mpr hle, hcons,
          Nat.not_lt.mpr hge, hgen] at hres
      | ok s2 =>
        obtain ⟨tok2, g2, htok2, -, -, -, hgen2, hs2⟩ :=
          burn_energy_tokens_ok hres
        rw [htok] at htok2
        injection htok2 with htok2
        subst htok2
        rw [hgen] at hgen2
        injection hgen2 with hgen2
        subst hgen2
        subst hs2
        refine ⟨_, rfl, ?_, ?_, ?_, rfl⟩
        · simp only [balance_of, mapGetD_mapSet, if_pos rfl]
          exact wsub_eq_sub _ _ hge hrange
        · simp [mapFind_mapSet]
        · simp [mapFind_mapSet]

/-- State with a consumer `2` holding 30, a generator `1` with
production 50 of capacity 100, an unconsumed credit 0 with expiry
3600, and total supply 50. -/
def burnWitnessState : State :=
  { emptyState with
    admin := some 9,
    total_supply := 50,
    balances := [(2, 30)],
    generators := [(1, ⟨1, 100, 50, true, 0⟩)],
    tokens := [(0, ⟨0, 1, 50, 0, 3600, false⟩)] }

/-- Witness for C7: a concrete successful burn of 30 at time 100. -/
theorem burn_energy_tokens_spec_witness :
    (burn_energy_tokens burnWitnessState 100 2 0 30).map
      (fun s' => (balance_of s' 2, s'.total_supply,
        (mapFind s'.tokens 0).map (fun t => t.is_consumed),
        (mapFind s'.generators 1).map (fun g2 => g2.current_production))) =
      .ok (0, 20, some true, some 20) := by
  obtain ⟨s', h1, h2, h3, h4, h5⟩ :=
    ((burn_energy_tokens_spec burnWitnessState 100 2 0 30).2
      ⟨0, 1, 50, 0, 3600, false⟩ (by decide)).2.2.2 ⟨1, 100, 50, true, 0⟩
      (by decide) rfl (by decide) (by decide) (by decide)
  rw [h1]
  simp only [Except.map]
  rw [h2, h3, h4, h5]
  decide

/-- Account `1` holds 1 and account `2` holds `2^64 - 1`. -/
def overflowState : State :=
  { emptyState with balances := [(1, 1), (2, U64MOD - 1)] }

/-- C8 counterexample.  With `balance(2) = 2^64 - 1`, the successful
`transfer(1, 2, 1)` leaves `balance(2) = 0`, not `balance(2) + 1`
(which is `2^64`): the credit to the recipient wraps modulo `2^64`. -/
theorem transfer_overflow_wraps_recipient :
    (transfer overflowState 1 2 1).map (fun s' => balance_of s' 2) =
      .ok 0 ∧
    balance_of overflowState 2 + 1 = U64MOD ∧
    (0 : Nat) ≠ U64MOD :=
  ⟨by decide, by decide, by decide⟩

/-- C8 (amended).  For distinct accounts `A ≠ B`, a transfer of
`0 < n ≤ balance(A)` with both balances in `u64` range and
`balance(B) + n < 2^64` succeeds and yields `balance(A) - n` and
`balance(B) + n`; with `balance(A) < n` it fails with
`InsufficientBalance` (the embedding's error result carries no
writes, i.e. state is unchanged). -/
theorem transfer_spec (s : State) (A B n : Nat) (hAB : A ≠ B) :
    (0 < n → n ≤ balance_of s A → balance_of s A < U64MOD →
      balance_of s B + n < U64MOD →
      ∃ s', transfer s A B n = .ok s'
        ∧ balance_of s' A = balance_of s A - n
        ∧ balance_of s' B = balance_of s B + n)
  ∧ (balance_of s A < n →
      transfer s A B n = .error (.contractError .InsufficientBalance)) := by
  constructor
  · intro hn hge hrA hrB
    unfold balance_of at hge hrA hrB
    cases hres : transfer s A B n with
    | error e =>
      exfalso
      simp [transfer, Nat.pos_iff_ne_zero.mp hn, Nat.not_lt.mpr hge]
        at hres
    | ok s2 =>
      obtain ⟨-, -, hs2⟩ := transfer_ok hres
      subst hs2
      refine ⟨_, rfl, ?_, ?_⟩
      · simp only [balance_of, mapGetD_mapSet, if_neg hAB, if_pos rfl]
        exact wsub_eq_sub _ _ hge hrA
      · have hBA : ¬ B = A := fun h => hAB h.symm
        simp only [balance_of, mapGetD_mapSet, if_pos rfl, if_neg hBA]
        unfold wadd
        exact Nat.mod_eq_of_lt hrB
  · intro hlt
    unfold balance_of at hlt
    have hn0 : n ≠ 0 := by omega
    simp [transfer, hn0, hlt]

/-- Witness for C8: transfer 4 from account `1` (holding 10) to
account `2` on the minted ledger. -/
theorem transfer_spec_witness :
    (transfer preSelfTransferState 1 2 4).map
      (fun s' => (balance_of s' 1, balance_of s' 2)) = .ok (6, 4) := by
  obtain ⟨s', h1, h2, h3⟩ :=
    (transfer_spec preSelfTransferState 1 2 4 (by decide)).1
      (by decide) (by decide) (by decide) (by decide)
  rw [h1]
  simp only [Except.map]
  rw [h2, h3]
  decide

/-- The ledger after a first successful `initialize` with admin 9. -/
def onceInitState : State :=
  match initContract emptyState 9 "" "" 7 with
  | .ok s => s
  | .error _ => emptyState

/-- C9 counterexample.  A second `initialize` fails with the contract
error `NotAuthorized` (code 1), not `AlreadyInitialized`: the error
enum of the contract has no `AlreadyInitialized` variant at all. -/
theorem second_init_errors_not_authorized :
    initContract emptyState 9 "" "" 7 = .ok onceInitState ∧
    initContract onceInitState 8 "" "" 9 =
      .error (.contractError .NotAuthorized) :=
  ⟨by decide, by decide⟩

/-- C9 (amended).  `initialize` fails with `NotAuthorized` (not
`AlreadyInitialized`, which does not exist in the error enum) whenever
the admin is already stored; on a first successful call it stores the
admin and the metadata with `total_supply = 0`, and every later
`initialize` call fails, so exactly one call per ledger lifetime can
succeed. -/
theorem initContract_spec (s : State) (a : Addr) (nm sy : String)
    (d : Nat) :
    (s.admin.isSome = true →
      initContract s a nm sy d = .error (.contractError .NotAuthorized))
  ∧ (s.admin = none →
      ∃ s', initContract s a nm sy d = .ok s'
        ∧ s'.admin = some a
        ∧ s'.metadata = some ⟨nm, sy, d, 0⟩
        ∧ s'.total_supply = 0
        ∧ ∀ (a2 : Addr) (nm2 sy2 : String) (d2 : Nat),
            initContract s' a2 nm2 sy2 d2 =
              .error (.contractError .NotAuthorized)) := by
  constructor
  · intro h
    simp [initContract, h]
  · intro h
    refine ⟨{ s with
              admin := some a,
              metadata := some ⟨nm, sy, d, 0⟩,
              total_supply := 0 }, ?_, rfl, rfl, rfl, ?_⟩
    · simp [initContract, h]
    · intro a2 nm2 sy2 d2
      simp [initContract]

/-- Witness for C9: concrete first and second `initialize` calls. -/
theorem initContract_spec_witness :
    (initContract emptyState 9 "" "" 7).map
      (fun s' => (s'.admin, s'.total_supply, initContract s' 8 "" "" 9)) =
      .ok (some 9, 0, .error (.contractError .NotAuthorized)) := by
  obtain ⟨s', h1, h2, -, h4, h5⟩ :=
    (initContract_spec emptyState 9 "" "" 7).2 rfl
  rw [h1]
  simp only [Except.map]
  rw [h2, h4, h5 8 "" "" 9]

/-- C10.  For an existing, unconsumed credit, a burn at ledger time
equal to the credit's `expiry_timestamp` does not fail the expiry
check: the check rejects only strictly greater timestamps, so the
result is never the typed `TokenNotFound` error. -/
theorem expiry_boundary_inclusive (s : State)
    (consumer token_id amount : Nat) (tok : EnergyToken)
    (htok : mapFind s.tokens token_id = some tok)
    (hcons : tok.is_consumed = false) :
    burn_energy_tokens s tok.expiry_timestamp consumer token_id amount ≠
      .error (.contractError .TokenNotFound) := by
  intro h
  by_cases hbal : mapGetD s.balances consumer 0 < amount
  · simp [burn_energy_tokens, htok, hcons, hbal] at h
  · cases hgen : mapFind s.generators tok.generator_id with
    | none => simp [burn_energy_tokens, htok, hcons, hbal, hgen] at h
    | some g => simp [burn_energy_tokens, htok, hcons, hbal, hgen] at h

/-- Witness for C10: burning credit 0 exactly at its expiry 3600. -/
theorem expiry_boundary_inclusive_witness :
    burn_energy_tokens burnWitnessState 3600 2 0 30 ≠
      .error (.contractError .TokenNotFound) :=
  expiry_boundary_inclusive burnWitnessState 2 0 30
    ⟨0, 1, 50, 0, 3600, false⟩ (by decide) rfl
